import Mathlib

/-!
Shallow embedding of the scoring and recommendation engine of the
breast-cancer-prediction repository: the endpoint bodies
`predict_symptom_based` and `predict_technical` from `app.py`
(namespace `BCP.App`) and from `backend/app.py` (namespace `BCP.Backend`).

Python float literals (`0.5`, `0.2`) are modelled as exact rationals and
all arithmetic is over `ℚ`; Python `round(x, 2)` (round half to even) is
modelled by `round2`.  A request body is modelled structurally: each
boolean field carries the raw string value (or `none` when absent), the
age field distinguishes absent / parseable-as-int / unparseable.
-/

namespace BCP

/-- One recommendation record: the Python dict with four string fields. -/
structure Rec where
  category : String
  recommendation : String
  priority : String
  details : String
deriving DecidableEq

/-- The `age` field of a symptom request: absent (so `data.get('age', 0)`
yields the default `0`), present and parseable by Python `int` (any sign),
or present but unparseable (Python `int` raises `ValueError`). -/
inductive AgeField
  | missing
  | intVal (n : ℤ)
  | malformed
deriving DecidableEq

/-- `int(data.get('age', 0))`; `none` models the raised `ValueError`
(the spec's `InvalidInputError`). -/
def parseAge : AgeField → Option ℤ
  | .missing => some 0
  | .intVal n => some n
  | .malformed => none

/-- A symptom-based request body: besides `age`, each field holds the raw
string value sent by the client, or `none` when the field is absent. -/
structure SymptomInput where
  age : AgeField
  familyHistory : Option String
  previousConditions : Option String
  lumpPresent : Option String
  nippleDischarge : Option String
  skinChanges : Option String
  breastPain : Option String
  armpitSwelling : Option String
  asymmetry : Option String
deriving DecidableEq

/-- `1 if data.get(field) == 'yes' else 0`. -/
def yesInd (o : Option String) : ℚ := if o = some "yes" then 1 else 0

/-- Round half to even to an integer (Python `round` tie-breaking). -/
def roundHalfEven (q : ℚ) : ℤ :=
  if Int.fract q = 1/2 then (if ⌊q⌋ % 2 = 0 then ⌊q⌋ else ⌊q⌋ + 1)
  else round q

/-- Python `round(x, 2)` on exact rationals. -/
def round2 (q : ℚ) : ℚ := (roundHalfEven (q * 100) : ℚ) / 100

namespace App

/-- The `risk_score` accumulation of `predict_symptom_based`,
`app.py` lines 152-162 (`0.5` and `0.2` are the rationals `1/2`, `1/5`). -/
def risk_score (age : ℤ) (i : SymptomInput) : ℚ :=
  0
  + (if 50 < age then (age : ℚ) * (1/2) else (age : ℚ) * (1/5))
  + yesInd i.familyHistory * 20
  + yesInd i.previousConditions * 15
  + yesInd i.lumpPresent * 25
  + yesInd i.nippleDischarge * 15
  + yesInd i.skinChanges * 20
  + yesInd i.breastPain * 10
  + yesInd i.armpitSwelling * 22
  + yesInd i.asymmetry * 18

/-- `risk_percentage = min(risk_score, 100)`, `app.py` line 164. -/
def risk_percentage (age : ℤ) (i : SymptomInput) : ℚ :=
  min (risk_score age i) 100

/- The fixed recommendation records of `predict_symptom_based`
(`app.py` lines 170-284), in source order. -/

def annualMammograms : Rec :=
  ⟨"Screening", "Schedule annual mammograms", "High",
   "Women over 40 should have yearly mammograms for early detection."⟩

def brcaTesting : Rec :=
  ⟨"Genetic Testing", "Consider BRCA1/BRCA2 genetic testing", "High",
   "Family history increases risk. Genetic counseling can help assess inherited risk."⟩

def earlierScreening : Rec :=
  ⟨"Screening", "Start screening earlier (age 30-35)", "High",
   "With family history, earlier and more frequent screening is recommended."⟩

def clinicalExam : Rec :=
  ⟨"Immediate Action", "Schedule clinical breast exam immediately", "Urgent",
   "Any new lump should be evaluated by a healthcare provider as soon as possible."⟩

def dischargeEval : Rec :=
  ⟨"Medical Evaluation", "Consult doctor about nipple discharge", "High",
   "Nipple discharge can indicate various conditions and should be evaluated."⟩

def skinChangesEval : Rec :=
  ⟨"Medical Evaluation", "Get skin changes examined", "High",
   "Skin dimpling, redness, or texture changes should be evaluated promptly."⟩

def lymphNodeEval : Rec :=
  ⟨"Immediate Action", "Evaluate lymph node swelling immediately", "Urgent",
   "Swelling in armpit or near collarbone may indicate lymph node involvement and requires urgent medical attention."⟩

def asymmetryEval : Rec :=
  ⟨"Medical Evaluation", "Assess sudden breast asymmetry", "High",
   "Sudden changes in breast size or shape should be evaluated by a healthcare provider."⟩

def healthyWeight : Rec :=
  ⟨"Lifestyle", "Maintain healthy weight", "Medium",
   "Being overweight increases breast cancer risk, especially after menopause."⟩

def exercise : Rec :=
  ⟨"Lifestyle", "Exercise regularly (150 min/week)", "Medium",
   "Regular physical activity can reduce breast cancer risk by 10-20%."⟩

def limitAlcohol : Rec :=
  ⟨"Lifestyle", "Limit alcohol consumption", "Medium",
   "Even small amounts of alcohol can increase risk. Limit to 1 drink per day or less."⟩

def healthyDiet : Rec :=
  ⟨"Diet", "Eat a healthy diet rich in fruits and vegetables", "Medium",
   "A diet high in vegetables, fruits, and whole grains may help reduce risk."⟩

def selfExams : Rec :=
  ⟨"Self-Care", "Perform monthly breast self-exams", "Medium",
   "Know what\x27s normal for you and report any changes to your doctor."⟩

def urgentEval : Rec :=
  ⟨"Urgent", "Schedule comprehensive medical evaluation", "Urgent",
   "High risk requires immediate medical attention and comprehensive screening."⟩

def followUpTwoWeeks : Rec :=
  ⟨"Follow-up", "Consult healthcare provider within 2 weeks", "High",
   "Moderate risk warrants professional evaluation and personalized screening plan."⟩

/-- The general tail always extended onto `preventions`
(`app.py` lines 237-268). -/
def generalTail : List Rec :=
  [healthyWeight, exercise, limitAlcohol, healthyDiet, selfExams]

/-- The `preventions` list of `predict_symptom_based` as built by the
sequential conditional append/extend statements, before the risk-specific
insert (`app.py` lines 167-268): each guarded `append`/`extend` adds its
block exactly when its condition holds. -/
def preventionsBody (age : ℤ) (i : SymptomInput) : List Rec :=
  let ps : List Rec := []
  let ps := ps ++ (if 40 < age then [annualMammograms] else [])
  let ps := ps ++ (if i.familyHistory = some "yes" then [brcaTesting, earlierScreening] else [])
  let ps := ps ++ (if i.lumpPresent = some "yes" then [clinicalExam] else [])
  let ps := ps ++ (if i.nippleDischarge = some "yes" then [dischargeEval] else [])
  let ps := ps ++ (if i.skinChanges = some "yes" then [skinChangesEval] else [])
  let ps := ps ++ (if i.armpitSwelling = some "yes" then [lymphNodeEval] else [])
  let ps := ps ++ (if i.asymmetry = some "yes" then [asymmetryEval] else [])
  ps ++ generalTail

/-- The full `preventions` list: the risk-specific record is inserted at
position 0 after the body is built (`app.py` lines 270-284). -/
def preventions (age : ℤ) (i : SymptomInput) : List Rec :=
  let ps := preventionsBody age i
  if 60 < risk_percentage age i then urgentEval :: ps
  else if 30 < risk_percentage age i then followUpTwoWeeks :: ps
  else ps

/-- The response fields of `predict_symptom_based` covered by the spec
(timestamp / user bookkeeping omitted). -/
structure RiskResult where
  risk_percentage : ℚ
  outcome : String
  preventions : List Rec
deriving DecidableEq

/-- `predict_symptom_based` (`app.py` lines 137-303); `none` models the
`ValueError` raised by `int(...)` on an unparseable age. -/
def predict_symptom_based (i : SymptomInput) : Option RiskResult :=
  (parseAge i.age).map fun age =>
    { risk_percentage := round2 (risk_percentage age i)
      outcome :=
        if 60 < risk_percentage age i then "High Risk"
        else if 30 < risk_percentage age i then "Moderate Risk"
        else "Low Risk"
      preventions := preventions age i }

/-- A technical request body: the six continuous features (already-parsed
numeric values; absent fields default to 0). -/
structure FeatureInput where
  radiusMean : ℚ
  textureMean : ℚ
  perimeterMean : ℚ
  areaMean : ℚ
  smoothnessMean : ℚ
  compactnessMean : ℚ
deriving DecidableEq

/-- The `features` list of `predict_technical` (`app.py` lines 312-319). -/
def features (i : FeatureInput) : List ℚ :=
  [i.radiusMean, i.textureMean, i.perimeterMean, i.areaMean,
   i.smoothnessMean, i.compactnessMean]

/-- A loaded classifier: one call that covers `model.predict` plus
`model.predict_proba` on the padded vector; `none` models any raised
exception, which the endpoint catches. -/
def ClassifierPort : Type := List ℚ → Option (List ℚ)

/-- `while len(features) < 30: features.append(0)`. -/
def padTo30 (fs : List ℚ) : List ℚ := fs ++ List.replicate (30 - fs.length) 0

/-- `malignant_prob` of `predict_technical` (`app.py` lines 321-337):
model present and succeeding takes `probability[1] * 100` (or 50 for a
single-class distribution), model present and raising takes 50, model
absent takes the fallback formula. -/
def malignant_prob (model : Option ClassifierPort) (i : FeatureInput) : ℚ :=
  match model with
  | some m =>
    match m (padTo30 (features i)) with
    | some probability =>
        if 1 < probability.length then probability.getD 1 0 * 100 else 50
    | none => 50
  | none => min (((features i).sum / ((features i).length : ℚ)) * 5) 100

/- The fixed recommendation records of `predict_technical`
(`app.py` lines 342-399), in source order. -/

def oncologist : Rec :=
  ⟨"Urgent", "Consult oncologist immediately", "Urgent",
   "High malignancy probability requires immediate specialist consultation."⟩

def biopsyImaging : Rec :=
  ⟨"Diagnostic", "Schedule biopsy and additional imaging", "Urgent",
   "Confirmatory tests are essential for accurate diagnosis and treatment planning."⟩

def geneticCounseling : Rec :=
  ⟨"Support", "Consider genetic counseling", "High",
   "Understanding genetic factors can guide treatment and family screening."⟩

def followUpSixMonths : Rec :=
  ⟨"Follow-up", "Schedule follow-up in 6 months", "Medium",
   "Even benign findings should be monitored regularly."⟩

def continueMammograms : Rec :=
  ⟨"Screening", "Continue regular mammograms", "Medium",
   "Maintain routine screening schedule as recommended by your doctor."⟩

def healthyLifestyle : Rec :=
  ⟨"Lifestyle", "Maintain healthy lifestyle", "Medium",
   "Regular exercise, healthy diet, and limited alcohol reduce cancer risk."⟩

def trackChanges : Rec :=
  ⟨"Monitoring", "Track any changes in breast tissue", "Medium",
   "Report any new lumps, pain, or changes to your healthcare provider."⟩

def breastHealthEducation : Rec :=
  ⟨"Education", "Learn about breast health", "Low",
   "Understanding risk factors and symptoms empowers early detection."⟩

/-- The `preventions` list of `predict_technical`
(`app.py` lines 340-399). -/
def techPreventions (mp : ℚ) : List Rec :=
  let ps : List Rec := []
  let ps :=
    if 50 < mp then ps ++ [oncologist, biopsyImaging, geneticCounseling]
    else ps ++ [followUpSixMonths, continueMammograms]
  ps ++ [healthyLifestyle, trackChanges, breastHealthEducation]

/-- The response fields of `predict_technical` covered by the spec. -/
structure ProbResult where
  malignant_probability : ℚ
  benign_probability : ℚ
  outcome : String
  preventions : List Rec
deriving DecidableEq

/-- `predict_technical` (`app.py` lines 307-419). -/
def predict_technical (model : Option ClassifierPort) (i : FeatureInput) :
    ProbResult :=
  let mp := malignant_prob model i
  { malignant_probability := round2 mp
    benign_probability := round2 (100 - mp)
    outcome := if 50 < mp then "Malignant" else "Benign"
    preventions := techPreventions mp }

end App

namespace Backend

/-- The `risk_score` accumulation of `backend/app.py` lines 159-168 —
the same formula as `App.risk_score`. -/
def risk_score (age : ℤ) (i : SymptomInput) : ℚ :=
  0
  + (if 50 < age then (age : ℚ) * (1/2) else (age : ℚ) * (1/5))
  + yesInd i.familyHistory * 20
  + yesInd i.previousConditions * 15
  + yesInd i.lumpPresent * 25
  + yesInd i.nippleDischarge * 15
  + yesInd i.skinChanges * 20
  + yesInd i.breastPain * 10
  + yesInd i.armpitSwelling * 22
  + yesInd i.asymmetry * 18

/-- `risk_percentage = min(risk_score, 100)`, `backend/app.py` line 170. -/
def risk_percentage (age : ℤ) (i : SymptomInput) : ℚ :=
  min (risk_score age i) 100

/- Recommendation records of `backend/app.py` whose `details` text differs
from the `app.py` version; records with identical text reuse the `App`
definitions below. -/

def clinicalExam : Rec :=
  ⟨"Immediate Action", "Schedule clinical breast exam immediately", "Urgent",
   "Any new lump should be evaluated by a healthcare provider."⟩

def lymphNodeEval : Rec :=
  ⟨"Immediate Action", "Evaluate lymph node swelling immediately", "Urgent",
   "Swelling in armpit or near collarbone may indicate lymph node involvement."⟩

def asymmetryEval : Rec :=
  ⟨"Medical Evaluation", "Assess sudden breast asymmetry", "High",
   "Sudden changes in breast size or shape should be evaluated."⟩

def limitAlcohol : Rec :=
  ⟨"Lifestyle", "Limit alcohol consumption", "Medium",
   "Even small amounts of alcohol can increase risk."⟩

def urgentEval : Rec :=
  ⟨"Urgent", "Schedule comprehensive medical evaluation", "Urgent",
   "High risk requires immediate medical attention."⟩

def followUpTwoWeeks : Rec :=
  ⟨"Follow-up", "Consult healthcare provider within 2 weeks", "High",
   "Moderate risk warrants professional evaluation."⟩

/-- The general tail of `backend/app.py` lines 238-269. -/
def generalTail : List Rec :=
  [App.healthyWeight, App.exercise, limitAlcohol, App.healthyDiet, App.selfExams]

/-- The `preventions` list of `backend/app.py` lines 172-269, before the
risk-specific insert. -/
def preventionsBody (age : ℤ) (i : SymptomInput) : List Rec :=
  let ps : List Rec := []
  let ps := ps ++ (if 40 < age then [App.annualMammograms] else [])
  let ps := ps ++ (if i.familyHistory = some "yes" then [App.brcaTesting, App.earlierScreening] else [])
  let ps := ps ++ (if i.lumpPresent = some "yes" then [clinicalExam] else [])
  let ps := ps ++ (if i.nippleDischarge = some "yes" then [App.dischargeEval] else [])
  let ps := ps ++ (if i.skinChanges = some "yes" then [App.skinChangesEval] else [])
  let ps := ps ++ (if i.armpitSwelling = some "yes" then [lymphNodeEval] else [])
  let ps := ps ++ (if i.asymmetry = some "yes" then [asymmetryEval] else [])
  ps ++ generalTail

/-- The full `preventions` list (`backend/app.py` lines 271-284). -/
def preventions (age : ℤ) (i : SymptomInput) : List Rec :=
  let ps := preventionsBody age i
  if 60 < risk_percentage age i then urgentEval :: ps
  else if 30 < risk_percentage age i then followUpTwoWeeks :: ps
  else ps

/-- `predict_symptom_based` (`backend/app.py` lines 142-301); `none`
models the caught exception path (the handler returns a 500). -/
def predict_symptom_based (i : SymptomInput) : Option App.RiskResult :=
  (parseAge i.age).map fun age =>
    { risk_percentage := round2 (risk_percentage age i)
      outcome :=
        if 60 < risk_percentage age i then "High Risk"
        else if 30 < risk_percentage age i then "Moderate Risk"
        else "Low Risk"
      preventions := preventions age i }

/-- `malignant_prob` of `backend/app.py` lines 321-332 — the same
decision structure as `App.malignant_prob`. -/
def malignant_prob (model : Option App.ClassifierPort) (i : App.FeatureInput) : ℚ :=
  match model with
  | some m =>
    match m (App.padTo30 (App.features i)) with
    | some probability =>
        if 1 < probability.length then probability.getD 1 0 * 100 else 50
    | none => 50
  | none => min (((App.features i).sum / ((App.features i).length : ℚ)) * 5) 100

/- Technical-path records of `backend/app.py` lines 337-357. -/

def oncologist : Rec :=
  ⟨"Urgent", "Consult oncologist immediately", "Urgent",
   "High malignancy probability requires specialist consultation."⟩

def biopsyImaging : Rec :=
  ⟨"Diagnostic", "Schedule biopsy and additional imaging", "Urgent",
   "Confirmatory tests are essential for accurate diagnosis."⟩

def followUpSixMonths : Rec :=
  ⟨"Follow-up", "Schedule follow-up in 6 months", "Medium",
   "Regular monitoring is important even for benign findings."⟩

/-- The `preventions` list of `backend/app.py` lines 334-357: two records
on the malignant branch, one on the benign branch, no general tail. -/
def techPreventions (mp : ℚ) : List Rec :=
  let ps : List Rec := []
  if 50 < mp then ps ++ [oncologist, biopsyImaging]
  else ps ++ [followUpSixMonths]

/-- `predict_technical` (`backend/app.py` lines 305-375). -/
def predict_technical (model : Option App.ClassifierPort) (i : App.FeatureInput) :
    App.ProbResult :=
  let mp := malignant_prob model i
  { malignant_probability := round2 mp
    benign_probability := round2 (100 - mp)
    outcome := if 50 < mp then "Malignant" else "Benign"
    preventions := techPreventions mp }

end Backend

/-! Concrete inputs used by witnesses and counterexamples. -/

/-- Age 51, every boolean field absent. -/
def sIn51 : SymptomInput := ⟨.intVal 51, none, none, none, none, none, none, none, none⟩

/-- Age -10 (Python `int("-10")` succeeds), every boolean field absent. -/
def sInNeg10 : SymptomInput := ⟨.intVal (-10), none, none, none, none, none, none, none, none⟩

/-- Age -5, every boolean field absent. -/
def sInNeg5 : SymptomInput := ⟨.intVal (-5), none, none, none, none, none, none, none, none⟩

/-- Age 10, `lumpPresent` and `armpitSwelling` answered `"yes"`. -/
def sInLump : SymptomInput :=
  ⟨.intVal 10, none, none, some "yes", none, none, none, some "yes", none⟩

/-- Age 51, `breastPain` answered `"yes"`, all else absent. -/
def sIn51Pain : SymptomInput :=
  ⟨.intVal 51, none, none, none, none, none, some "yes", none, none⟩

/-- Age 70, `lumpPresent` and `armpitSwelling` answered `"yes"`. -/
def sInHigh : SymptomInput :=
  ⟨.intVal 70, none, none, some "yes", none, none, none, some "yes", none⟩

/-- All six features 0. -/
def fiZero : App.FeatureInput := ⟨0, 0, 0, 0, 0, 0⟩

/-- All six features 100. -/
def fiBig : App.FeatureInput := ⟨100, 100, 100, 100, 100, 100⟩

/-- First feature -10, remaining features 0. -/
def fiNeg : App.FeatureInput := ⟨-10, 0, 0, 0, 0, 0⟩

/-- A classifier that raises on every call. -/
def failingClassifier : App.ClassifierPort := fun _ => none

/-! Helper lemmas about rounding. -/

theorem fract_def (q : ℚ) : Int.fract q = q - ⌊q⌋ := rfl

theorem round_eq_floor_of_fract_lt {q : ℚ} (h : Int.fract q < 1/2) :
    round q = ⌊q⌋ := by
  have hf := fract_def q
  have hl : (0:ℚ) ≤ Int.fract q := Int.fract_nonneg q
  rw [round_eq, Int.floor_eq_iff]
  constructor <;> linarith

theorem round_eq_floor_add_one_of_le_fract {q : ℚ} (h : 1/2 ≤ Int.fract q) :
    round q = ⌊q⌋ + 1 := by
  have hf := fract_def q
  have hu : Int.fract q < 1 := Int.fract_lt_one q
  rw [round_eq, Int.floor_eq_iff]
  push_cast
  constructor <;> linarith

/-- Reflecting a rational around an even integer commutes with
round-half-to-even. -/
theorem roundHalfEven_int_sub (n : ℤ) (hn : n % 2 = 0) (x : ℚ) :
    roundHalfEven ((n:ℚ) - x) = n - roundHalfEven x := by
  unfold roundHalfEven
  by_cases h0 : Int.fract x = 0
  · have hfl : (⌊x⌋ : ℚ) = x := by have := fract_def x; linarith
    have hx : (n:ℚ) - x = ((n - ⌊x⌋ : ℤ) : ℚ) := by push_cast; linarith
    rw [hx, if_neg (by rw [Int.fract_intCast]; norm_num), round_intCast,
        if_neg (by rw [h0]; norm_num)]
    have : round x = ⌊x⌋ := by rw [← hfl, round_intCast, Int.floor_intCast]
    omega
  · have hfr : Int.fract ((n:ℚ) - x) = 1 - Int.fract x := by
      rw [sub_eq_add_neg, Int.fract_int_add, Int.fract_neg h0]
    have hfl : ⌊(n:ℚ) - x⌋ = n - ⌊x⌋ - 1 := by
      have h1 := fract_def ((n:ℚ) - x)
      have h2 := fract_def x
      have : (⌊(n:ℚ) - x⌋ : ℚ) = ((n - ⌊x⌋ - 1 : ℤ) : ℚ) := by push_cast; linarith
      exact_mod_cast this
    by_cases hh : Int.fract x = 1/2
    · rw [if_pos (by rw [hfr, hh]; norm_num), if_pos hh, hfl]
      split_ifs <;> omega
    · have hc : Int.fract ((n:ℚ) - x) ≠ 1/2 := by
        rw [hfr]; intro hc; apply hh; linarith
      rw [if_neg hc, if_neg hh]
      rcases lt_or_le (Int.fract x) (1/2) with hlt | hge
      · rw [round_eq_floor_add_one_of_le_fract (by rw [hfr]; linarith),
            round_eq_floor_of_fract_lt hlt, hfl]
        omega
      · have hgt : 1/2 < Int.fract x := lt_of_le_of_ne hge (Ne.symm hh)
        rw [round_eq_floor_of_fract_lt (by rw [hfr]; linarith),
            round_eq_floor_add_one_of_le_fract hge, hfl]
        omega

/-- `round(100 - x, 2) = 100 - round(x, 2)` exactly, for every rational. -/
theorem round2_hundred_sub (q : ℚ) : round2 (100 - q) = 100 - round2 q := by
  unfold round2
  rw [show (100 - q) * 100 = ((10000:ℤ):ℚ) - q * 100 by push_cast; ring,
      roundHalfEven_int_sub 10000 (by norm_num) (q * 100)]
  push_cast
  ring

/-- A rational that is an exact multiple of 1/100. -/
def Cent (q : ℚ) : Prop := ∃ n : ℤ, q * 100 = (n:ℚ)

theorem Cent.add {a b : ℚ} (ha : Cent a) (hb : Cent b) : Cent (a + b) := by
  obtain ⟨m, hm⟩ := ha
  obtain ⟨n, hn⟩ := hb
  exact ⟨m + n, by push_cast; linarith⟩

theorem Cent.ite (c : Prop) [Decidable c] {a b : ℚ} (ha : Cent a) (hb : Cent b) :
    Cent (if c then a else b) := by
  split
  · exact ha
  · exact hb

theorem Cent.min100 {a : ℚ} (ha : Cent a) : Cent (min a 100) := by
  rw [min_def]
  exact Cent.ite _ ha ⟨10000, by norm_num⟩

theorem cent_yesInd_mul (o : Option String) {k : ℚ} (hk : Cent k) :
    Cent (yesInd o * k) := by
  unfold yesInd
  split
  · simpa using hk
  · exact ⟨0, by norm_num⟩

theorem round2_cent {q : ℚ} (h : Cent q) : round2 q = q := by
  obtain ⟨n, hn⟩ := h
  unfold round2
  have hr : roundHalfEven ((n:ℚ)) = n := by
    unfold roundHalfEven
    rw [if_neg (by rw [Int.fract_intCast]; norm_num)]
    exact round_intCast n
  rw [hn, hr]
  have h100 : (100:ℚ) ≠ 0 := by norm_num
  field_simp
  linarith

theorem roundHalfEven_le (q : ℚ) : (roundHalfEven q : ℚ) ≤ q + 1/2 := by
  unfold roundHalfEven
  have hf := fract_def q
  have h0 := Int.fract_nonneg q
  split_ifs with h1 h2
  · linarith
  · push_cast; linarith
  · rcases lt_or_le (Int.fract q) (1/2) with hlt | hge
    · rw [round_eq_floor_of_fract_lt hlt]; linarith
    · rw [round_eq_floor_add_one_of_le_fract hge]; push_cast; linarith

theorem le_roundHalfEven (q : ℚ) : q - 1/2 ≤ (roundHalfEven q : ℚ) := by
  unfold roundHalfEven
  have hf := fract_def q
  have h0 := Int.fract_nonneg q
  have hu : Int.fract q < 1 := Int.fract_lt_one q
  split_ifs with h1 h2
  · linarith
  · push_cast; linarith
  · rcases lt_or_le (Int.fract q) (1/2) with hlt | hge
    · rw [round_eq_floor_of_fract_lt hlt]; linarith
    · rw [round_eq_floor_add_one_of_le_fract hge]; push_cast; linarith

theorem round2_nonneg {q : ℚ} (h : 0 ≤ q) : 0 ≤ round2 q := by
  unfold round2
  have h1 := le_roundHalfEven (q * 100)
  have h2 : ((-1:ℤ):ℚ) < (roundHalfEven (q * 100) : ℚ) := by push_cast; nlinarith
  have h3 : (0:ℤ) ≤ roundHalfEven (q * 100) := by
    have hz : (-1:ℤ) < roundHalfEven (q * 100) := by exact_mod_cast h2
    omega
  have h4 : (0:ℚ) ≤ (roundHalfEven (q * 100) : ℚ) := by exact_mod_cast h3
  positivity

theorem round2_le_hundred {q : ℚ} (h : q ≤ 100) : round2 q ≤ 100 := by
  unfold round2
  have h1 := roundHalfEven_le (q * 100)
  have h2 : (roundHalfEven (q * 100) : ℚ) < ((10001:ℤ):ℚ) := by push_cast; nlinarith
  have h3 : roundHalfEven (q * 100) ≤ 10000 := by
    have hz : roundHalfEven (q * 100) < (10001:ℤ) := by exact_mod_cast h2
    omega
  have h4 : (roundHalfEven (q * 100) : ℚ) ≤ 10000 := by exact_mod_cast h3
  linarith

/-! Structure lemmas about the recommendation lists. -/

theorem mem_ite_list {α : Type} {c : Prop} [Decidable c] {l : List α} {r : α}
    (h : r ∈ if c then l else []) : r ∈ l := by
  split at h
  · exact h
  · simp at h

/-- The sequentially-built symptom preventions body is the concatenation of
the conditional factor blocks, in factor-check order, then the fixed tail. -/
theorem App.preventionsBody_eq (age : ℤ) (i : SymptomInput) :
    App.preventionsBody age i =
      (if 40 < age then [App.annualMammograms] else [])
      ++ (if i.familyHistory = some "yes" then [App.brcaTesting, App.earlierScreening] else [])
      ++ (if i.lumpPresent = some "yes" then [App.clinicalExam] else [])
      ++ (if i.nippleDischarge = some "yes" then [App.dischargeEval] else [])
      ++ (if i.skinChanges = some "yes" then [App.skinChangesEval] else [])
      ++ (if i.armpitSwelling = some "yes" then [App.lymphNodeEval] else [])
      ++ (if i.asymmetry = some "yes" then [App.asymmetryEval] else [])
      ++ App.generalTail := by
  simp [App.preventionsBody]

theorem Backend.preventionsBody_blocks (age : ℤ) (i : SymptomInput) :
    Backend.preventionsBody age i =
      (if 40 < age then [App.annualMammograms] else [])
      ++ (if i.familyHistory = some "yes" then [App.brcaTesting, App.earlierScreening] else [])
      ++ (if i.lumpPresent = some "yes" then [Backend.clinicalExam] else [])
      ++ (if i.nippleDischarge = some "yes" then [App.dischargeEval] else [])
      ++ (if i.skinChanges = some "yes" then [App.skinChangesEval] else [])
      ++ (if i.armpitSwelling = some "yes" then [Backend.lymphNodeEval] else [])
      ++ (if i.asymmetry = some "yes" then [Backend.asymmetryEval] else [])
      ++ Backend.generalTail := by
  simp [Backend.preventionsBody]

/-- The overall-severity record never occurs in the conditional-plus-general
body: every body record has a different category/details. -/
theorem App.urgentEval_not_mem_body (age : ℤ) (i : SymptomInput) :
    App.urgentEval ∉ App.preventionsBody age i := by
  intro h
  rw [App.preventionsBody_eq] at h
  simp only [List.mem_append] at h
  rcases h with (((((((h | h) | h) | h) | h) | h) | h) | h) <;>
    first
      | (have h2 := mem_ite_list h; revert h2; decide)
      | (revert h; decide)

/-- The symptom risk percentage is always an exact multiple of 1/100
(in fact of 1/10), so `round(_, 2)` returns it unchanged. -/
theorem App.risk_percentage_cent (age : ℤ) (i : SymptomInput) :
    Cent (App.risk_percentage age i) := by
  apply Cent.min100
  unfold App.risk_score
  have c0 : Cent (0:ℚ) := ⟨0, by norm_num⟩
  have cage : Cent (if 50 < age then (age:ℚ) * (1/2) else (age:ℚ) * (1/5)) :=
    Cent.ite _ ⟨age * 50, by push_cast; ring⟩ ⟨age * 20, by push_cast; ring⟩
  have c10 : Cent (10:ℚ) := ⟨1000, by norm_num⟩
  have c15 : Cent (15:ℚ) := ⟨1500, by norm_num⟩
  have c18 : Cent (18:ℚ) := ⟨1800, by norm_num⟩
  have c20 : Cent (20:ℚ) := ⟨2000, by norm_num⟩
  have c22 : Cent (22:ℚ) := ⟨2200, by norm_num⟩
  have c25 : Cent (25:ℚ) := ⟨2500, by norm_num⟩
  exact (((((((((c0.add cage).add (cent_yesInd_mul _ c20)).add
    (cent_yesInd_mul _ c15)).add (cent_yesInd_mul _ c25)).add
    (cent_yesInd_mul _ c15)).add (cent_yesInd_mul _ c20)).add
    (cent_yesInd_mul _ c10)).add (cent_yesInd_mul _ c22)).add
    (cent_yesInd_mul _ c18))

/-- The three outcome bands of the `'High Risk' if ... else ...` chain. -/
theorem outcome_bands (rp : ℚ) :
    ((if 60 < rp then "High Risk" else if 30 < rp then "Moderate Risk"
        else "Low Risk") = "High Risk" ↔ 60 < rp) ∧
    ((if 60 < rp then "High Risk" else if 30 < rp then "Moderate Risk"
        else "Low Risk") = "Moderate Risk" ↔ (30 < rp ∧ rp ≤ 60)) ∧
    ((if 60 < rp then "High Risk" else if 30 < rp then "Moderate Risk"
        else "Low Risk") = "Low Risk" ↔ rp ≤ 30) := by
  by_cases h60 : 60 < rp
  · refine ⟨iff_of_true (by rw [if_pos h60]) h60,
      iff_of_false (by rw [if_pos h60]; decide) (fun hx => not_lt.mpr hx.2 h60),
      iff_of_false (by rw [if_pos h60]; decide)
        (fun hx => not_lt.mpr (hx.trans (by norm_num)) h60)⟩
  · by_cases h30 : 30 < rp
    · refine ⟨iff_of_false (by rw [if_neg h60, if_pos h30]; decide) h60,
        iff_of_true (by rw [if_neg h60, if_pos h30]) ⟨h30, not_lt.mp h60⟩,
        iff_of_false (by rw [if_neg h60, if_pos h30]; decide)
          (fun hx => not_lt.mpr hx h30)⟩
    · refine ⟨iff_of_false (by rw [if_neg h60, if_neg h30]; decide) h60,
        iff_of_false (by rw [if_neg h60, if_neg h30]; decide) (fun hx => h30 hx.1),
        iff_of_true (by rw [if_neg h60, if_neg h30]) (not_lt.mp h30)⟩

/-! The claims. -/

/-- C1: for every SymptomAssessmentInput with parseable age,
`predict_symptom_based` returns risk_percentage = min(weighted sum, 100)
with age*0.5 above 50 and age*0.2 otherwise plus the fixed weight of each
field that is exactly `"yes"`, and outcome "High Risk" iff the percentage
exceeds 60, "Moderate Risk" iff it is in (30, 60], "Low Risk" iff it is
at most 30 — so exactly 60 is Moderate and exactly 30 is Low. -/
theorem claim_C1 (i : SymptomInput) (age : ℤ) (h : parseAge i.age = some age) :
    ∃ r, App.predict_symptom_based i = some r ∧
      r.risk_percentage =
        min ((if 50 < age then (age:ℚ) * (1/2) else (age:ℚ) * (1/5))
          + (if i.familyHistory = some "yes" then 20 else 0)
          + (if i.previousConditions = some "yes" then 15 else 0)
          + (if i.lumpPresent = some "yes" then 25 else 0)
          + (if i.nippleDischarge = some "yes" then 15 else 0)
          + (if i.skinChanges = some "yes" then 20 else 0)
          + (if i.breastPain = some "yes" then 10 else 0)
          + (if i.armpitSwelling = some "yes" then 22 else 0)
          + (if i.asymmetry = some "yes" then 18 else 0)) 100 ∧
      (r.outcome = "High Risk" ↔ 60 < r.risk_percentage) ∧
      (r.outcome = "Moderate Risk" ↔ (30 < r.risk_percentage ∧ r.risk_percentage ≤ 60)) ∧
      (r.outcome = "Low Risk" ↔ r.risk_percentage ≤ 30) := by
  have hsome : App.predict_symptom_based i = some
      { risk_percentage := round2 (App.risk_percentage age i)
        outcome :=
          if 60 < App.risk_percentage age i then "High Risk"
          else if 30 < App.risk_percentage age i then "Moderate Risk"
          else "Low Risk"
        preventions := App.preventions age i } := by
    unfold App.predict_symptom_based
    rw [h]
    rfl
  have hr2 : round2 (App.risk_percentage age i) = App.risk_percentage age i :=
    round2_cent (App.risk_percentage_cent age i)
  have hscore : App.risk_score age i =
      (if 50 < age then (age:ℚ) * (1/2) else (age:ℚ) * (1/5))
      + (if i.familyHistory = some "yes" then 20 else 0)
      + (if i.previousConditions = some "yes" then 15 else 0)
      + (if i.lumpPresent = some "yes" then 25 else 0)
      + (if i.nippleDischarge = some "yes" then 15 else 0)
      + (if i.skinChanges = some "yes" then 20 else 0)
      + (if i.breastPain = some "yes" then 10 else 0)
      + (if i.armpitSwelling = some "yes" then 22 else 0)
      + (if i.asymmetry = some "yes" then 18 else 0) := by
    simp only [App.risk_score, yesInd, ite_mul, one_mul, zero_mul, zero_add]
  obtain ⟨hh, hm, hl⟩ := outcome_bands (App.risk_percentage age i)
  refine ⟨_, hsome, ?_, ?_, ?_, ?_⟩
  · rw [hr2, App.risk_percentage, hscore]
  · rw [hr2]
    exact hh
  · rw [hr2]
    exact hm
  · rw [hr2]
    exact hl

/-- C9 counterexample: the age string "-5" is parsed by Python `int` and
scored without any error, although -5 is not a non-negative integer, so
"fails iff age cannot be parsed as a non-negative integer" is wrong. -/
theorem claim_C9_counterexample :
    (App.predict_symptom_based sInNeg5).isSome = true ∧
    parseAge sInNeg5.age = some (-5) ∧ ¬ (0 ≤ (-5:ℤ)) :=
  ⟨rfl, rfl, by norm_num⟩

/-- C9 amended: `predict_symptom_based` never fails on malformed or
missing boolean fields (any value other than exactly "yes" counts as
false), and it fails iff the age field cannot be parsed as an integer —
sign unrestricted, negative ages are accepted and scored. -/
theorem claim_C9_amended :
    (∀ i : SymptomInput,
      (App.predict_symptom_based i).isSome = (parseAge i.age).isSome) ∧
    (∀ o : Option String, o ≠ some "yes" → yesInd o = 0) ∧
    (∀ n : ℤ, parseAge (.intVal n) = some n) := by
  refine ⟨fun i => ?_, fun o ho => ?_, fun n => rfl⟩
  · unfold App.predict_symptom_based
    cases parseAge i.age <;> rfl
  · unfold yesInd
    rw [if_neg ho]

/-- Witness for C9 at age -5 and a malformed boolean value. -/
theorem claim_C9_witness :
    (App.predict_symptom_based sInNeg5).isSome = (parseAge sInNeg5.age).isSome ∧
    yesInd (some "maybe") = 0 :=
  ⟨claim_C9_amended.1 sInNeg5, claim_C9_amended.2.1 (some "maybe") (by decide)⟩

/-- Every yes/no indicator is nonnegative. -/
theorem yesInd_nonneg (o : Option String) : 0 ≤ yesInd o := by
  unfold yesInd
  split <;> norm_num

/-- C6 counterexample: for age -10 with no symptoms the returned
risk_percentage is -2, and the fallback malignant probability of a
negative feature vector is negative: `min(_, 100)` clamps only from
above, so "never negative ... including negative age or extreme feature
values" is wrong. -/
theorem claim_C6_counterexample :
    (∃ r, App.predict_symptom_based sInNeg10 = some r ∧ r.risk_percentage < 0) ∧
    (App.predict_technical none fiNeg).malignant_probability < 0 := by
  constructor
  · have hrp : App.risk_percentage (-10) sInNeg10 = -2 := by
      simp [App.risk_percentage, App.risk_score, yesInd, sInNeg10, min_def]
      norm_num
    have hr2 : round2 (-2) = -2 := round2_cent ⟨-200, by norm_num⟩
    refine ⟨_, rfl, ?_⟩
    show round2 (App.risk_percentage (-10) sInNeg10) < 0
    rw [hrp, hr2]
    norm_num
  · have hmp : App.malignant_prob none fiNeg = -25/3 := by
      simp [App.malignant_prob, App.features, fiNeg, min_def]
      norm_num
    show round2 (App.malignant_prob none fiNeg) < 0
    rw [hmp]
    have h1 := roundHalfEven_le ((-25/3 : ℚ) * 100)
    have h2 : (roundHalfEven ((-25/3 : ℚ) * 100) : ℚ) < 0 := by linarith
    unfold round2
    exact div_neg_of_neg_of_pos h2 (by norm_num)

/-- C6 amended: risk_percentage and the fallback malignant_probability
never exceed 100, and they are nonnegative whenever the parsed age is
nonnegative (symptom path) resp. the feature sum is nonnegative (feature
path); for negative inputs the code returns negative values. -/
theorem claim_C6_amended :
    (∀ (i : SymptomInput) (age : ℤ), parseAge i.age = some age →
      ∃ r, App.predict_symptom_based i = some r ∧
        r.risk_percentage ≤ 100 ∧ (0 ≤ age → 0 ≤ r.risk_percentage)) ∧
    (∀ i : App.FeatureInput,
      (App.predict_technical none i).malignant_probability ≤ 100 ∧
      (0 ≤ (App.features i).sum →
        0 ≤ (App.predict_technical none i).malignant_probability)) := by
  constructor
  · intro i age h
    have hr2 : round2 (App.risk_percentage age i) = App.risk_percentage age i :=
      round2_cent (App.risk_percentage_cent age i)
    refine ⟨_, by unfold App.predict_symptom_based; rw [h]; rfl, ?_, ?_⟩
    · show round2 (App.risk_percentage age i) ≤ 100
      rw [hr2]
      exact min_le_right _ _
    · intro ha
      show 0 ≤ round2 (App.risk_percentage age i)
      rw [hr2]
      have hageQ : (0:ℚ) ≤ (age:ℚ) := by exact_mod_cast ha
      have hage : (0:ℚ) ≤ if 50 < age then (age:ℚ) * (1/2) else (age:ℚ) * (1/5) := by
        split <;> positivity
      have t1 := mul_nonneg (yesInd_nonneg i.familyHistory) (by norm_num : (0:ℚ) ≤ 20)
      have t2 := mul_nonneg (yesInd_nonneg i.previousConditions) (by norm_num : (0:ℚ) ≤ 15)
      have t3 := mul_nonneg (yesInd_nonneg i.lumpPresent) (by norm_num : (0:ℚ) ≤ 25)
      have t4 := mul_nonneg (yesInd_nonneg i.nippleDischarge) (by norm_num : (0:ℚ) ≤ 15)
      have t5 := mul_nonneg (yesInd_nonneg i.skinChanges) (by norm_num : (0:ℚ) ≤ 20)
      have t6 := mul_nonneg (yesInd_nonneg i.breastPain) (by norm_num : (0:ℚ) ≤ 10)
      have t7 := mul_nonneg (yesInd_nonneg i.armpitSwelling) (by norm_num : (0:ℚ) ≤ 22)
      have t8 := mul_nonneg (yesInd_nonneg i.asymmetry) (by norm_num : (0:ℚ) ≤ 18)
      have hsc : 0 ≤ App.risk_score age i := by
        unfold App.risk_score
        linarith
      exact le_min hsc (by norm_num)
  · intro i
    constructor
    · show round2 (App.malignant_prob none i) ≤ 100
      exact round2_le_hundred (by
        simp only [App.malignant_prob]
        exact min_le_right _ _)
    · intro hs
      show 0 ≤ round2 (App.malignant_prob none i)
      apply round2_nonneg
      simp only [App.malignant_prob]
      have hlen : (0:ℚ) < ((App.features i).length : ℚ) := by
        simp [App.features]
      exact le_min (by positivity) (by norm_num)

/-- Witness for C6 at age 51 (bounds on the symptom path) and the
all-zero feature vector (bounds on the feature path). -/
theorem claim_C6_witness :
    (∃ r, App.predict_symptom_based sIn51 = some r ∧
      0 ≤ r.risk_percentage ∧ r.risk_percentage ≤ 100) ∧
    0 ≤ (App.predict_technical none fiZero).malignant_probability := by
  constructor
  · obtain ⟨r, hr, h100, h0⟩ := claim_C6_amended.1 sIn51 51 rfl
    exact ⟨r, hr, h0 (by norm_num), h100⟩
  · exact (claim_C6_amended.2 fiZero).2 (by simp [App.features, fiZero])

/-- Witness for C1 at age 51 and all fields absent: 51 > 50 gives
51 * 0.5 = 25.5, which is Low Risk. -/
theorem claim_C1_witness :
    ∃ r, App.predict_symptom_based sIn51 = some r ∧
      r.risk_percentage = 51/2 ∧ r.outcome = "Low Risk" := by
  obtain ⟨r, hsome, hrp, hhigh, hmod, hlow⟩ := claim_C1 sIn51 51 rfl
  have hval : r.risk_percentage = 51/2 := by
    rw [hrp]
    simp [sIn51, min_def]
    norm_num
  exact ⟨r, hsome, hval, hlow.mpr (by rw [hval]; norm_num)⟩

/-- C7: for every SymptomAssessmentInput, the conditional recommendations
appear in the fixed factor-check order age>40, familyHistory, lumpPresent,
nippleDischarge, skinChanges, armpitSwelling, asymmetry — each factor
contributing its fixed record(s) exactly when positive — followed by the
identical fixed general tail appended for every request; being a pure
function of the structured input, the order cannot depend on input-arrival
order. -/
theorem claim_C7 (age : ℤ) (i : SymptomInput) :
    App.preventionsBody age i =
      (if 40 < age then [App.annualMammograms] else [])
      ++ (if i.familyHistory = some "yes" then [App.brcaTesting, App.earlierScreening] else [])
      ++ (if i.lumpPresent = some "yes" then [App.clinicalExam] else [])
      ++ (if i.nippleDischarge = some "yes" then [App.dischargeEval] else [])
      ++ (if i.skinChanges = some "yes" then [App.skinChangesEval] else [])
      ++ (if i.armpitSwelling = some "yes" then [App.lymphNodeEval] else [])
      ++ (if i.asymmetry = some "yes" then [App.asymmetryEval] else [])
      ++ App.generalTail
    ∧ App.generalTail.IsSuffix (App.preventionsBody age i) := by
  refine ⟨App.preventionsBody_eq age i, ⟨_, (App.preventionsBody_eq age i).symm⟩⟩

/-- C10: two symptom inputs that differ only in `breastPain` and/or
`previousConditions` have the same conditional-plus-general preventions
body; the two fields contribute 10 and 15 points to the score but no
factor-specific record. -/
theorem claim_C10 (age : ℤ) (i j : SymptomInput)
    (h1 : i.familyHistory = j.familyHistory)
    (h2 : i.lumpPresent = j.lumpPresent)
    (h3 : i.nippleDischarge = j.nippleDischarge)
    (h4 : i.skinChanges = j.skinChanges)
    (h5 : i.armpitSwelling = j.armpitSwelling)
    (h6 : i.asymmetry = j.asymmetry) :
    App.preventionsBody age i = App.preventionsBody age j ∧
    App.risk_score age i - App.risk_score age j =
      (yesInd i.breastPain - yesInd j.breastPain) * 10
      + (yesInd i.previousConditions - yesInd j.previousConditions) * 15 := by
  constructor
  · rw [App.preventionsBody_eq, App.preventionsBody_eq, h1, h2, h3, h4, h5, h6]
  · unfold App.risk_score
    rw [h1, h2, h3, h4, h5, h6]
    ring

/-- Witness for C10 at age 51 with `breastPain` toggled. -/
theorem claim_C10_witness :
    App.preventionsBody 51 sIn51 = App.preventionsBody 51 sIn51Pain ∧
    App.risk_score 51 sIn51 - App.risk_score 51 sIn51Pain =
      (yesInd sIn51.breastPain - yesInd sIn51Pain.breastPain) * 10
      + (yesInd sIn51.previousConditions - yesInd sIn51Pain.previousConditions) * 15 :=
  claim_C10 51 sIn51 sIn51Pain rfl rfl rfl rfl rfl rfl

/-- C3 counterexample: on the feature path the malignant branch inserts no
Urgent comprehensive-evaluation record at position 0: with all six features
100 and no classifier the malignant branch is taken, the first element is
the oncologist-consult record (not the comprehensive-evaluation record,
which is absent), and two records carry Urgent priority, not a single
one. -/
theorem claim_C3_counterexample :
    50 < App.malignant_prob none fiBig ∧
    (App.predict_technical none fiBig).preventions.head? = some App.oncologist ∧
    App.oncologist ≠ App.urgentEval ∧
    App.urgentEval ∉ (App.predict_technical none fiBig).preventions ∧
    ((App.predict_technical none fiBig).preventions.countP
      (fun r => r.priority == "Urgent")) = 2 := by
  have hmp : App.malignant_prob none fiBig = 100 := by
    simp [App.malignant_prob, App.features, fiBig, min_def]
    norm_num
  have hl : (App.predict_technical none fiBig).preventions =
      [App.oncologist, App.biopsyImaging, App.geneticCounseling,
       App.healthyLifestyle, App.trackChanges, App.breastHealthEducation] := by
    simp only [App.predict_technical, hmp, App.techPreventions]
    rw [if_pos (by norm_num : (50:ℚ) < 100)]
    rfl
  refine ⟨by rw [hmp]; norm_num, by rw [hl]; rfl, by decide, by rw [hl]; decide,
    by rw [hl]; rfl⟩

/-- C3 amended: on the symptom path, after the body is built, risk>60
prepends the single Urgent comprehensive-evaluation record, 30<risk≤60
prepends the High consult-within-2-weeks record, otherwise nothing is
prepended, and whenever the Urgent overall-risk record is present it is
the first element; on the feature path nothing is inserted after building —
when the malignant branch is taken the list simply starts with the
Urgent-priority oncologist-consult record and contains no
comprehensive-evaluation record. -/
theorem claim_C3_amended :
    (∀ (age : ℤ) (i : SymptomInput),
      (60 < App.risk_percentage age i →
        App.preventions age i = App.urgentEval :: App.preventionsBody age i) ∧
      (30 < App.risk_percentage age i → App.risk_percentage age i ≤ 60 →
        App.preventions age i = App.followUpTwoWeeks :: App.preventionsBody age i) ∧
      (App.risk_percentage age i ≤ 30 →
        App.preventions age i = App.preventionsBody age i) ∧
      (App.urgentEval ∈ App.preventions age i →
        (App.preventions age i).head? = some App.urgentEval)) ∧
    (∀ mp : ℚ, 50 < mp →
      (App.techPreventions mp).head? = some App.oncologist ∧
      App.urgentEval ∉ App.techPreventions mp) := by
  constructor
  · intro age i
    refine ⟨fun h => ?_, fun h1 h2 => ?_, fun h => ?_, fun h => ?_⟩
    · simp only [App.preventions]
      rw [if_pos h]
    · simp only [App.preventions]
      rw [if_neg (not_lt.mpr h2), if_pos h1]
    · simp only [App.preventions]
      rw [if_neg (by intro hc; linarith), if_neg (not_lt.mpr h)]
    · by_cases h60 : 60 < App.risk_percentage age i
      · simp only [App.preventions]
        rw [if_pos h60]
        rfl
      · exfalso
        revert h
        simp only [App.preventions]
        rw [if_neg h60]
        by_cases h30 : 30 < App.risk_percentage age i
        · rw [if_pos h30]
          intro h
          rcases List.mem_cons.mp h with h | h
          · revert h; decide
          · exact App.urgentEval_not_mem_body age i h
        · rw [if_neg h30]
          exact App.urgentEval_not_mem_body age i
  · intro mp h
    constructor
    · simp [App.techPreventions, if_pos h]
    · simp only [App.techPreventions]
      rw [if_pos h]
      decide

/-- Witness for C3: age 70 with lump and armpit swelling scores 82, which
prepends the Urgent record; a fallback probability of 100 puts the
oncologist record first on the feature path. -/
theorem claim_C3_witness :
    App.preventions 70 sInHigh = App.urgentEval :: App.preventionsBody 70 sInHigh ∧
    (App.techPreventions 100).head? = some App.oncologist := by
  have h82 : App.risk_percentage 70 sInHigh = 82 := by
    simp [App.risk_percentage, App.risk_score, yesInd, sInHigh, min_def]
    norm_num
  exact ⟨(claim_C3_amended.1 70 sInHigh).1 (by rw [h82]; norm_num),
    (claim_C3_amended.2 100 (by norm_num)).1⟩

/-- C8: with no classifier, the computed malignant probability is
min((sum(features)/6)*5, 100) and the outcome is "Malignant" iff that
value strictly exceeds 50 (exactly 50 gives "Benign"); the all-zero
feature vector yields probability 0, outcome "Benign",
benign probability 100. -/
theorem claim_C8 :
    (∀ i : App.FeatureInput,
      App.malignant_prob none i = min (((App.features i).sum / 6) * 5) 100 ∧
      ((App.predict_technical none i).outcome = "Malignant" ↔
        50 < App.malignant_prob none i)) ∧
    (App.predict_technical none fiZero).malignant_probability = 0 ∧
    (App.predict_technical none fiZero).outcome = "Benign" ∧
    (App.predict_technical none fiZero).benign_probability = 100 := by
  have hform : ∀ i : App.FeatureInput,
      App.malignant_prob none i = min (((App.features i).sum / 6) * 5) 100 := by
    intro i
    have hlen : ((App.features i).length : ℚ) = 6 := by simp [App.features]
    simp only [App.malignant_prob, hlen]
  have hzero : App.malignant_prob none fiZero = 0 := by
    rw [hform fiZero]
    simp [App.features, fiZero, min_def]
  refine ⟨fun i => ⟨hform i, ?_⟩, ?_, ?_, ?_⟩
  · by_cases h : 50 < App.malignant_prob none i
    · simp only [App.predict_technical]
      rw [if_pos h]
      exact iff_of_true rfl h
    · simp only [App.predict_technical]
      rw [if_neg h]
      exact iff_of_false (by decide) h
  · show round2 (App.malignant_prob none fiZero) = 0
    rw [hzero]
    exact round2_cent ⟨0, by norm_num⟩
  · simp only [App.predict_technical]
    rw [if_neg (by rw [hzero]; norm_num)]
  · show round2 (100 - App.malignant_prob none fiZero) = 100
    rw [hzero, show (100:ℚ) - 0 = 100 by norm_num]
    exact round2_cent ⟨10000, by norm_num⟩

/-- C4: for every request and any classifier state, the returned
benign_probability equals 100 minus the already-rounded
malignant_probability exactly, so the rounded pair sums to exactly 100. -/
theorem claim_C4 (model : Option App.ClassifierPort) (i : App.FeatureInput) :
    (App.predict_technical model i).benign_probability
      = 100 - (App.predict_technical model i).malignant_probability ∧
    (App.predict_technical model i).malignant_probability
      + (App.predict_technical model i).benign_probability = 100 := by
  have h := round2_hundred_sub (App.malignant_prob model i)
  constructor
  · simp only [App.predict_technical]
    exact h
  · simp only [App.predict_technical]
    rw [h]
    ring

/-- C2 counterexample: on the all-zero feature vector an always-raising
classifier produces malignant_probability 50, while the no-classifier
fallback formula produces 0, so the two results differ. -/
theorem claim_C2_counterexample :
    App.predict_technical (some failingClassifier) fiZero ≠
      App.predict_technical none fiZero ∧
    (App.predict_technical (some failingClassifier) fiZero).malignant_probability = 50 ∧
    (App.predict_technical none fiZero).malignant_probability = 0 := by
  have h50 : App.malignant_prob (some failingClassifier) fiZero = 50 := rfl
  have h0 : App.malignant_prob none fiZero = 0 := by
    have hlen : ((App.features fiZero).length : ℚ) = 6 := by simp [App.features]
    simp only [App.malignant_prob, hlen]
    simp [App.features, fiZero, min_def]
  have hr50 : round2 50 = 50 := round2_cent ⟨5000, by norm_num⟩
  have hr0 : round2 0 = 0 := round2_cent ⟨0, by norm_num⟩
  have hm50 : (App.predict_technical (some failingClassifier) fiZero).malignant_probability = 50 := by
    show round2 (App.malignant_prob (some failingClassifier) fiZero) = 50
    rw [h50, hr50]
  have hm0 : (App.predict_technical none fiZero).malignant_probability = 0 := by
    show round2 (App.malignant_prob none fiZero) = 0
    rw [h0, hr0]
  refine ⟨fun hEq => ?_, hm50, hm0⟩
  rw [congrArg App.ProbResult.malignant_probability hEq, hm0] at hm50
  norm_num at hm50

/-- C2 amended: when the classifier raises on every call the code sets
malignant_prob to the constant 50 — not the no-classifier fallback
formula — so the result is probabilities 50/50, outcome "Benign", and the
benign-branch preventions; it matches the fallback output only on inputs
where the fallback formula itself evaluates to 50. -/
theorem claim_C2_amended (c : App.ClassifierPort) (hc : ∀ v, c v = none)
    (i : App.FeatureInput) :
    App.predict_technical (some c) i =
      { malignant_probability := 50
        benign_probability := 50
        outcome := "Benign"
        preventions := App.techPreventions 50 } := by
  have hmp : App.malignant_prob (some c) i = 50 := by
    simp only [App.malignant_prob, hc]
  have h1 : round2 50 = 50 := round2_cent ⟨5000, by norm_num⟩
  simp only [App.predict_technical, hmp, show (100:ℚ) - 50 = 50 by norm_num, h1,
    if_neg (lt_irrefl (50:ℚ))]

/-- Witness for C2: the always-raising classifier on the all-zero input. -/
theorem claim_C2_witness :
    App.predict_technical (some failingClassifier) fiZero =
      { malignant_probability := 50
        benign_probability := 50
        outcome := "Benign"
        preventions := App.techPreventions 50 } :=
  claim_C2_amended failingClassifier (fun _ => rfl) fiZero

/-- The two files share the same scoring formula verbatim. -/
theorem Backend.risk_percentage_eq (age : ℤ) (i : SymptomInput) :
    Backend.risk_percentage age i = App.risk_percentage age i := rfl

/-- C5 counterexample: on identical inputs the two files return different
preventions lists — the backend technical path returns a single follow-up
record where app.py returns five records, and on the symptom path the
prepended moderate-risk records carry different details texts. -/
theorem claim_C5_counterexample :
    (Backend.predict_technical none fiZero).preventions ≠
      (App.predict_technical none fiZero).preventions ∧
    (∃ r r2, App.predict_symptom_based sInLump = some r ∧
      Backend.predict_symptom_based sInLump = some r2 ∧
      r.preventions ≠ r2.preventions) := by
  have h0 : App.malignant_prob none fiZero = 0 := by
    have hlen : ((App.features fiZero).length : ℚ) = 6 := by simp [App.features]
    simp only [App.malignant_prob, hlen]
    simp [App.features, fiZero, min_def]
  have h0B : Backend.malignant_prob none fiZero = 0 := h0
  constructor
  · simp only [App.predict_technical, Backend.predict_technical, h0, h0B,
      App.techPreventions, Backend.techPreventions]
    rw [if_neg (by norm_num : ¬ (50:ℚ) < 0), if_neg (by norm_num : ¬ (50:ℚ) < 0)]
    decide
  · have hrp : App.risk_percentage 10 sInLump = 49 := by
      simp [App.risk_percentage, App.risk_score, yesInd, sInLump, min_def]
      norm_num
    have hrpB : Backend.risk_percentage 10 sInLump = 49 := hrp
    refine ⟨_, _, by unfold App.predict_symptom_based; rfl,
      by unfold Backend.predict_symptom_based; rfl, ?_⟩
    show App.preventions 10 sInLump ≠ Backend.preventions 10 sInLump
    simp only [App.preventions, Backend.preventions, hrp, hrpB]
    rw [if_neg (by norm_num : ¬ (60:ℚ) < 49), if_pos (by norm_num : (30:ℚ) < 49),
      if_neg (by norm_num : ¬ (60:ℚ) < 49), if_pos (by norm_num : (30:ℚ) < 49)]
    intro hEq
    have hhead := congrArg List.head? hEq
    simp only [List.head?] at hhead
    revert hhead
    decide

/-- C5 amended: the two implementations compute identical
risk_percentage / malignant_probability, benign_probability and outcome
for identical inputs — the scoring logic is shared — but their preventions
lists differ (shortened details texts, smaller technical branches and no
technical general tail in backend/app.py). -/
theorem claim_C5_amended :
    (∀ (i : SymptomInput) (age : ℤ), parseAge i.age = some age →
      ∃ r r2, App.predict_symptom_based i = some r ∧
        Backend.predict_symptom_based i = some r2 ∧
        r2.risk_percentage = r.risk_percentage ∧ r2.outcome = r.outcome) ∧
    (∀ (model : Option App.ClassifierPort) (i : App.FeatureInput),
      (Backend.predict_technical model i).malignant_probability
        = (App.predict_technical model i).malignant_probability ∧
      (Backend.predict_technical model i).benign_probability
        = (App.predict_technical model i).benign_probability ∧
      (Backend.predict_technical model i).outcome
        = (App.predict_technical model i).outcome) := by
  constructor
  · intro i age h
    refine ⟨_, _, by unfold App.predict_symptom_based; rw [h]; rfl,
      by unfold Backend.predict_symptom_based; rw [h]; rfl, ?_, ?_⟩
    · show round2 (Backend.risk_percentage age i) = round2 (App.risk_percentage age i)
      rw [Backend.risk_percentage_eq age i]
    · show (if 60 < Backend.risk_percentage age i then "High Risk"
          else if 30 < Backend.risk_percentage age i then "Moderate Risk"
          else "Low Risk")
        = (if 60 < App.risk_percentage age i then "High Risk"
          else if 30 < App.risk_percentage age i then "Moderate Risk"
          else "Low Risk")
      rw [Backend.risk_percentage_eq age i]
  · intro model i
    exact ⟨rfl, rfl, rfl⟩

/-- Witness for C5 at age 51 with all fields absent. -/
theorem claim_C5_witness :
    ∃ r r2, App.predict_symptom_based sIn51 = some r ∧
      Backend.predict_symptom_based sIn51 = some r2 ∧
      r2.risk_percentage = r.risk_percentage ∧ r2.outcome = r.outcome :=
  claim_C5_amended.1 sIn51 51 rfl

end BCP
